import Mathlib

/-!
Formal model of the watchtower root command (`cmd/root.go`).

The file shallowly embeds the control flow of `Run`, `runUpgradesOnSchedule`,
`runUpdatesWithNotifications`, `formatDuration` and the `PreRun` timeout check,
together with the single-slot update-lock discipline shared by the cron
scheduler and the HTTP update endpoint.  External collaborators that are not
part of the repository snapshot (the update action, the notifier transports,
the HTTP plumbing) appear as parameters or as symbolic events; functions of
this repository that live outside `cmd/root.go` are modelled from the
specification and say so in their doc comments.  Durations are modelled as
`Int` nanosecond counts, mirroring Go's `time.Duration` (an `int64`).
-/

namespace Watchtower

/-- A per-session report as produced by the external `actions.Update` call;
only the three counters that `cmd/root.go` reads off the resulting metric are
relevant here. -/
structure Report where
  scanned : Nat
  updated : Nat
  failed : Nat
  deriving DecidableEq, Repr

/-- A session metric with the `Scanned`/`Updated`/`Failed` counters logged by
`runUpdatesWithNotifications` (root.go 380-384). -/
structure Metric where
  scanned : Nat
  updated : Nat
  failed : Nat
  deriving DecidableEq, Repr

/-- Modelled from the spec: `metrics.NewMetric` (pkg/metrics is not under
src/); §8 of the spec describes the session metric as the aggregate
{scanned, updated, failed} of the report. -/
def NewMetric (r : Report) : Metric :=
  { scanned := r.scanned, updated := r.updated, failed := r.failed }

/-- One runtime container, reduced to the identity fields the root command's
filters discriminate on. -/
structure Container where
  id : String
  name : String
  imageName : String
  deriving DecidableEq, Repr

/-- Symbolic filter value: the base filter built by `filters.BuildFilter` at
the top of `Run`, possibly narrowed by an image list. -/
inductive FilterExpr where
  | base
  | byImage (images : List String) (f : FilterExpr)
  deriving DecidableEq, Repr

/-- Evaluation of a symbolic filter against a container, given the predicate
denoted by the base filter. -/
def FilterExpr.eval (basePred : Container → Bool) : FilterExpr → Container → Bool
  | .base, c => basePred c
  | .byImage images f, c => f.eval basePred c && images.contains c.imageName

/-- Modelled from the spec: `filters.FilterByImage` (pkg/filters is not under
src/).  §4.1: `Narrow(predicate, imageList)` restricts to containers whose
image matches any name in the list; §4.6: the request's `images` parameter is
optional, and an absent parameter leaves the filter unchanged. -/
def FilterByImage (images : Option (List String)) (f : FilterExpr) : FilterExpr :=
  match images with
  | none => f
  | some imgs => .byImage imgs f

/-- The process-wide tick-time flag variables of cmd/root.go (lines 31-46)
that flow into every session's update parameters. -/
structure Globals where
  cleanup : Bool
  noRestart : Bool
  monitorOnly : Bool
  timeout : Int
  lifecycleHooks : Bool
  rollingRestart : Bool
  labelPrecedence : Bool
  noPull : Bool
  deriving DecidableEq, Repr

/-- The `t.UpdateParams` record passed to `actions.Update`. -/
structure UpdateParams where
  filter : FilterExpr
  cleanup : Bool
  noRestart : Bool
  timeout : Int
  monitorOnly : Bool
  lifecycleHooks : Bool
  rollingRestart : Bool
  labelPrecedence : Bool
  noPull : Bool
  deriving DecidableEq, Repr

/-- The `UpdateParams` literal built inside `runUpdatesWithNotifications`
(root.go 363-373): every field is copied verbatim from the globals. -/
def mkUpdateParams (g : Globals) (filter : FilterExpr) : UpdateParams :=
  { filter := filter
    cleanup := g.cleanup
    noRestart := g.noRestart
    timeout := g.timeout
    monitorOnly := g.monitorOnly
    lifecycleHooks := g.lifecycleHooks
    rollingRestart := g.rollingRestart
    labelPrecedence := g.labelPrecedence
    noPull := g.noPull }

/-- Outcome of the external `actions.Update` call (internal/actions is out of
scope): it returns a report, returns a report together with an error, or
panics (in which case control never returns to the caller's next statement). -/
inductive UpdateOutcome where
  | ok (r : Report)
  | errored (r : Report) (msg : String)
  | panics
  deriving DecidableEq, Repr

/-- Observable events emitted by the session, scheduler-tick and HTTP-handler
code paths of cmd/root.go. -/
inductive Ev where
  | startNotification
  | updateCall (p : UpdateParams)
  | errorLogged
  | sendNotification (r : Report)
  | sessionDoneLogged (m : Metric)
  | registerScan (m : Option Metric)
  | skipDebugLogged
  | lockTaken
  | lockReturned
  | skippedReported
  deriving DecidableEq, Repr

/-- Shallow embedding of `runUpdatesWithNotifications` (root.go 361-386):
`StartNotification`, then the `actions.Update` call with the params literal,
an error log when the call errored, `SendNotification(result)`, the session
log line, and the metric as return value.  `SendNotification` is a plain
statement, not a deferred one, so a panicking `Update` unwinds before it; the
trace is then truncated and no metric value is returned. -/
def runUpdatesWithNotifications (g : Globals) (f : FilterExpr) (o : UpdateOutcome) :
    List Ev × Option Metric :=
  match o with
  | .ok r =>
      ([.startNotification, .updateCall (mkUpdateParams g f), .sendNotification r,
        .sessionDoneLogged (NewMetric r)], some (NewMetric r))
  | .errored r _ =>
      ([.startNotification, .updateCall (mkUpdateParams g f), .errorLogged, .sendNotification r,
        .sessionDoneLogged (NewMetric r)], some (NewMetric r))
  | .panics =>
      ([.startNotification, .updateCall (mkUpdateParams g f)], none)

/-- Shallow embedding of the cron callback registered by
`runUpgradesOnSchedule` (root.go 323-339): a non-blocking `select` on the
lock channel (`lockTokens` tokens buffered).  When a token is available the
callback takes it, runs the session, registers the session metric and returns
the token via `defer` (the `defer` also runs when the session panics, in
which case no metric was registered; the robfig/cron v1 job wrapper runs
each job with a recover, so the process survives such a tick and keeps
ticking); when the channel is empty the `default` branch registers a nil
metric and logs the skip. -/
def schedulerTick (lockTokens : Nat) (g : Globals) (f : FilterExpr) (o : UpdateOutcome) :
    List Ev :=
  if 1 ≤ lockTokens then
    let sess := runUpdatesWithNotifications g f o
    [Ev.lockTaken] ++ sess.1 ++
      (match sess.2 with
       | some m => [Ev.registerScan (some m)]
       | none => []) ++ [Ev.lockReturned]
  else
    [Ev.registerScan none, Ev.skipDebugLogged]

/-- The closure that `Run` hands to `update.New` (root.go 187-190): run a
session over the base filter narrowed by the requested images, then register
the resulting metric. -/
def updateAPICallback (g : Globals) (baseFilter : FilterExpr) (images : Option (List String))
    (o : UpdateOutcome) : List Ev :=
  let sess := runUpdatesWithNotifications g (FilterByImage images baseFilter) o
  sess.1 ++
    (match sess.2 with
     | some m => [Ev.registerScan (some m)]
     | none => [])

/-- Modelled from the spec: the `/v1/update` handler of pkg/api/update (not
under src/).  §4.6: acquisition of the single-slot lock is non-blocking at the
trigger endpoint; on success the handler runs the callback and releases the
token on all exit paths, and a failed acquire reports "skipped". -/
def handleUpdateRequest (lockTokens : Nat) (g : Globals) (baseFilter : FilterExpr)
    (images : Option (List String)) (o : UpdateOutcome) : List Ev :=
  if 1 ≤ lockTokens then
    [Ev.lockTaken] ++ updateAPICallback g baseFilter images o ++ [Ev.lockReturned]
  else
    [Ev.skippedReported]

/-- Boolean recognizers over events, used to count occurrences in traces. -/
def isRegisterScan : Ev → Bool
  | .registerScan _ => true
  | _ => false

def isStartNotification : Ev → Bool
  | .startNotification => true
  | _ => false

def isSendNotification : Ev → Bool
  | .sendNotification _ => true
  | _ => false

/-- Process state for the update-lock discipline of root.go: `tokens` is the
number of booleans buffered in the `updateLock` channel (capacity one,
seeded with one token at line 181-182), `running` the number of sessions that
currently hold a taken token, `schedActive` whether the cron scheduler is
started and not yet stopped, `signalled` whether SIGINT/SIGTERM was received,
and `returned` whether the final `<-lock` of `runUpgradesOnSchedule`
(line 357) has consumed the token and the function has returned. -/
structure Sys where
  tokens : Nat
  running : Nat
  schedActive : Bool
  signalled : Bool
  returned : Bool
  deriving DecidableEq, Repr

/-- Initial state: `make(chan bool, 1)` followed by `updateLock <- true`
(root.go 181-182), scheduler started, no signal yet. -/
def Sys.init : Sys :=
  { tokens := 1, running := 0, schedActive := true, signalled := false, returned := false }

/-- Labels of the atomic lock-relevant actions of the three live actors
(cron scheduler, HTTP server, signal watcher). -/
inductive Label where
  | tickAcquire
  | tickSkip
  | httpAcquire
  | httpSkip
  | release
  | signal
  | schedStop
  | lockDrain
  deriving DecidableEq, Repr

/-- Interleaved small-step semantics of the lock usage in root.go:
a scheduler tick takes the token non-blockingly when present
(`case v := <-lock`, line 325) or skips while leaving the state unchanged
(`default`, line 329); the HTTP handler does the same (modelled from the
spec, §4.6); a session's deferred `lock <- v` returns the token (line 326);
the signal watcher records the signal (line 354), stops the scheduler
(line 355, only after the signal) and finally consumes the token with
`<-lock` (line 357, only after the scheduler stopped and only when a token
is buffered, i.e. the wait blocks until the in-flight session released). -/
inductive Step : Sys → Label → Sys → Prop where
  | tickAcquire (s : Sys) (h : 1 ≤ s.tokens) (ha : s.schedActive = true) :
      Step s .tickAcquire { s with tokens := s.tokens - 1, running := s.running + 1 }
  | tickSkip (s : Sys) (h : s.tokens = 0) (ha : s.schedActive = true) :
      Step s .tickSkip s
  | httpAcquire (s : Sys) (h : 1 ≤ s.tokens) :
      Step s .httpAcquire { s with tokens := s.tokens - 1, running := s.running + 1 }
  | httpSkip (s : Sys) (h : s.tokens = 0) :
      Step s .httpSkip s
  | release (s : Sys) (h : 1 ≤ s.running) :
      Step s .release { s with tokens := s.tokens + 1, running := s.running - 1 }
  | signal (s : Sys) :
      Step s .signal { s with signalled := true }
  | schedStop (s : Sys) (h : s.signalled = true) :
      Step s .schedStop { s with schedActive := false }
  | lockDrain (s : Sys) (h : 1 ≤ s.tokens) (hs : s.schedActive = false)
      (hg : s.signalled = true) :
      Step s .lockDrain { s with tokens := s.tokens - 1, returned := true }

/-- States reachable from the seeded single-slot lock. -/
inductive Reachable : Sys → Prop where
  | init : Reachable Sys.init
  | step {s : Sys} {l : Label} {s' : Sys} (hr : Reachable s) (hs : Step s l s') : Reachable s'

/-- Total number of lock tokens in existence: buffered in the channel, held
by a running session, or consumed by the final shutdown drain. -/
def tokenCount (s : Sys) : Nat :=
  s.tokens + s.running + (if s.returned = true then 1 else 0)

/-- Cron schedule handle, kept symbolic. -/
structure CronSchedule where
  spec : String
  deriving DecidableEq, Repr

/-- Model of `robfig/cron` v1 `Parse` at the single point root.go depends on
it: an empty spec string is rejected with an error (parser.go of the library
starts with `if len(spec) == 0 { return nil, fmt.Errorf("empty spec string") }`).
Nonempty specs are kept symbolic and treated as parsable; no claim in this
development depends on the library's treatment of nonempty strings. -/
def cronParse (spec : String) : Except String CronSchedule :=
  if spec = "" then .error "empty spec string" else .ok { spec := spec }

/-- Configuration under which `Run` (root.go 140-213) executes: the flag
values it reads, the outcomes of the two external pre-flight checks, and the
outcome of the update action for the run-once session. -/
structure RunConfig where
  healthCheck : Bool
  pid : Nat
  runOnce : Bool
  enableUpdateAPI : Bool
  enableMetricsAPI : Bool
  unblockHTTPAPI : Bool
  apiStartError : Bool
  sanityOk : Bool
  multiInstanceOk : Bool
  scheduleSpec : String
  globals : Globals
  sessionOutcome : UpdateOutcome
  deriving DecidableEq, Repr

/-- Observable events of `Run` itself.  The lock created at root.go 181-182
is identified by a numeric id so that the theorems can state that the HTTP
update handler and the scheduler receive the same lock. -/
inductive RunEvent where
  | fatalLogged
  | sanityChecked
  | startupMessage
  | sessionEv (e : Ev)
  | notifierClosed
  | errorLogged
  | multiInstanceChecked
  | lockCreated (lockId : Nat) (capacity : Nat) (seeded : Nat)
  | apiUpdateHandlerRegistered (lockId : Nat)
  | apiMetricsHandlerRegistered
  | apiStarted (blocking : Bool)
  | schedulerStarted (lockId : Nat)
  deriving DecidableEq, Repr

/-- Final fate of the process in the `Run` model. -/
inductive RunResult where
  | exited (code : Nat)
  | panicked
  deriving DecidableEq, Repr

/-- Sequential skeleton of `runUpgradesOnSchedule` (root.go 314-359): parse
the cron spec via `AddFunc`; on a parse error return it without starting
anything; otherwise write the startup message, start the scheduler (which
thereafter runs `schedulerTick` on each firing, against the lock identified
by `lockId`), and — after the signal/stop/drain sequence modelled by `Step` —
return nil. -/
def runUpgradesOnSchedule (spec : String) (lockId : Nat) :
    List RunEvent × Except String Unit :=
  match cronParse spec with
  | .error e => ([], .error e)
  | .ok _ => ([RunEvent.startupMessage, RunEvent.schedulerStarted lockId], .ok ())

/-- Events of the run-once session as seen in `Run`'s trace. -/
def sessionRunEvents (g : Globals) (f : FilterExpr) (o : UpdateOutcome) : List RunEvent :=
  ((runUpdatesWithNotifications g f o).1).map RunEvent.sessionEv

/-- Shallow embedding of `Run` (root.go 140-213), in source order: the
health-check early exits, the rolling-restart/monitor-only rejection, the
sanity check (fatal via `logNotifyExit` on failure), the run-once path
(startup message, one session, notifier close, exit 0), the
multiple-instance check, creation of the single-slot lock (id 0, capacity 1,
seeded with 1 token), registration of the HTTP update handler against that
same lock, the metrics handler, the API start (blocking exactly when the
update API is enabled and periodic polls are not unblocked; a non-closed
server error is only logged), and finally `runUpgradesOnSchedule` with the
same lock followed by an unconditional exit 1. -/
def Run (cfg : RunConfig) : List RunEvent × RunResult :=
  if cfg.healthCheck then
    if cfg.pid = 1 then ([RunEvent.fatalLogged], .exited 1)
    else ([], .exited 0)
  else if cfg.globals.rollingRestart && cfg.globals.monitorOnly then
    ([RunEvent.fatalLogged], .exited 1)
  else if cfg.sanityOk = false then
    ([RunEvent.sanityChecked, RunEvent.errorLogged, RunEvent.notifierClosed], .exited 1)
  else if cfg.runOnce then
    let sess := sessionRunEvents cfg.globals .base cfg.sessionOutcome
    if cfg.sessionOutcome = .panics then
      ([RunEvent.sanityChecked, RunEvent.startupMessage] ++ sess, .panicked)
    else
      ([RunEvent.sanityChecked, RunEvent.startupMessage] ++ sess ++ [RunEvent.notifierClosed],
        .exited 0)
  else if cfg.multiInstanceOk = false then
    ([RunEvent.sanityChecked, RunEvent.errorLogged, RunEvent.notifierClosed], .exited 1)
  else
    let pre :=
      [RunEvent.sanityChecked, RunEvent.multiInstanceChecked, RunEvent.lockCreated 0 1 1] ++
        (if cfg.enableUpdateAPI then
          [RunEvent.apiUpdateHandlerRegistered 0] ++
            (if cfg.unblockHTTPAPI = false then [RunEvent.startupMessage] else [])
        else []) ++
        (if cfg.enableMetricsAPI then [RunEvent.apiMetricsHandlerRegistered] else []) ++
        [RunEvent.apiStarted (cfg.enableUpdateAPI && !cfg.unblockHTTPAPI)] ++
        (if cfg.apiStartError then [RunEvent.errorLogged] else [])
    let sched := runUpgradesOnSchedule cfg.scheduleSpec 0
    match sched.2 with
    | .error _ => (pre ++ sched.1 ++ [RunEvent.errorLogged], .exited 1)
    | .ok _ => (pre ++ sched.1, .exited 1)

/-- Hours component of `formatDuration` (root.go 229): `int64(d.Hours())`,
i.e. the number of nanoseconds divided by 3.6e12, truncated toward zero. -/
def hoursOf (d : Int) : Int := d.tdiv 3600000000000

/-- Minutes component (root.go 230): `int64(math.Mod(d.Minutes(), 60))`,
i.e. whole minutes modulo 60, with Go's truncating conversion and
sign-of-dividend remainder. -/
def minutesOf (d : Int) : Int := (d.tdiv 60000000000).tmod 60

/-- Seconds component (root.go 231): `int64(math.Mod(d.Seconds(), 60))`. -/
def secondsOf (d : Int) : Int := (d.tdiv 1000000000).tmod 60

/-- The hour text appended at root.go 233-238. -/
def hourSegment (hours : Int) : String :=
  if hours = 1 then "1 hour"
  else if hours ≠ 0 then toString hours ++ " hours"
  else ""

/-- The separator appended at root.go 240-242. -/
def hourMinuteSep (hours minutes seconds : Int) : String :=
  if hours ≠ 0 ∧ (seconds ≠ 0 ∨ minutes ≠ 0) then ", " else ""

/-- The minute text appended at root.go 244-249. -/
def minuteSegment (minutes : Int) : String :=
  if minutes = 1 then "1 minute"
  else if minutes ≠ 0 then toString minutes ++ " minutes"
  else ""

/-- The separator appended at root.go 251-253. -/
def minuteSecondSep (minutes seconds : Int) : String :=
  if minutes ≠ 0 ∧ seconds ≠ 0 then ", " else ""

/-- The second text appended at root.go 255-260. -/
def secondSegment (hours minutes seconds : Int) : String :=
  if seconds = 1 then "1 second"
  else if seconds ≠ 0 ∨ (hours = 0 ∧ minutes = 0) then toString seconds ++ " seconds"
  else ""

/-- Shallow embedding of `formatDuration` (root.go 226-263): the builder
writes the five pieces in order.  The Go code computes the three components
with float64 arithmetic and truncating conversions; on durations below
2^53 ns that arithmetic is exact and agrees with the truncated integer
division and remainder used by `hoursOf`/`minutesOf`/`secondsOf`, and the
assembly below is proved for arbitrary component values anyway. -/
def formatDuration (d : Int) : String :=
  hourSegment (hoursOf d) ++ hourMinuteSep (hoursOf d) (minutesOf d) (secondsOf d) ++
    minuteSegment (minutesOf d) ++ minuteSecondSep (minutesOf d) (secondsOf d) ++
    secondSegment (hoursOf d) (minutesOf d) (secondsOf d)

/-- The timeout validation in `PreRun` (root.go 93-95): only strictly
negative values are fatal, with the quoted error message. -/
def preRunTimeoutCheck (timeout : Int) : Except String Unit :=
  if timeout < 0 then Except.error "Please specify a positive value for timeout value."
  else Except.ok ()

theorem str_eq_empty_of_length_zero (s : String) (h : s.length = 0) : s = "" := by
  cases s with
  | mk data =>
    cases data with
    | nil => rfl
    | cons a l => simp [String.length] at h

theorem append_ne_empty_right (s t : String) (ht : t ≠ "") : s ++ t ≠ "" := by
  intro h
  have hl := congrArg String.length h
  rw [String.length_append] at hl
  have hz : ("" : String).length = 0 := rfl
  have h0 : t.length = 0 := by omega
  exact ht (str_eq_empty_of_length_zero t h0)

theorem append_ne_empty_left (s t : String) (hs : s ≠ "") : s ++ t ≠ "" := by
  intro h
  have hl := congrArg String.length h
  rw [String.length_append] at hl
  have hz : ("" : String).length = 0 := rfl
  have h0 : s.length = 0 := by omega
  exact hs (str_eq_empty_of_length_zero s h0)

theorem append_ne_of_ne_same_length (s t u : String) (hlen : t.length = u.length)
    (hne : t ≠ u) : s ++ t ≠ u := by
  intro h
  have hl := congrArg String.length h
  rw [String.length_append] at hl
  have h0 : s.length = 0 := by omega
  have hs : s = "" := str_eq_empty_of_length_zero s h0
  subst hs
  rw [String.empty_append] at h
  exact hne h

theorem hourSegment_ne_empty (h : Int) (hne : h ≠ 0) : hourSegment h ≠ "" := by
  unfold hourSegment
  by_cases h1 : h = 1
  · rw [if_pos h1]
    decide
  · rw [if_neg h1, if_pos hne]
    exact append_ne_empty_right _ _ (by decide)

theorem minuteSegment_ne_empty (m : Int) (hne : m ≠ 0) : minuteSegment m ≠ "" := by
  unfold minuteSegment
  by_cases h1 : m = 1
  · rw [if_pos h1]
    decide
  · rw [if_neg h1, if_pos hne]
    exact append_ne_empty_right _ _ (by decide)

theorem secondSegment_zero_zero_ne_empty (s : Int) : secondSegment 0 0 s ≠ "" := by
  unfold secondSegment
  by_cases h1 : s = 1
  · rw [if_pos h1]
    decide
  · rw [if_neg h1, if_pos (Or.inr ⟨rfl, rfl⟩)]
    exact append_ne_empty_right _ _ (by decide)

theorem hourSegment_singular_iff (h : Int) : hourSegment h = "1 hour" ↔ h = 1 := by
  constructor
  · intro he
    by_contra hne
    unfold hourSegment at he
    rw [if_neg hne] at he
    by_cases h0 : h ≠ 0
    · rw [if_pos h0] at he
      exact append_ne_of_ne_same_length _ _ _ (by decide) (by decide) he
    · rw [if_neg h0] at he
      exact (by decide : ¬("" : String) = "1 hour") he
  · intro h1
    rw [hourSegment, if_pos h1]

theorem minuteSegment_singular_iff (m : Int) : minuteSegment m = "1 minute" ↔ m = 1 := by
  constructor
  · intro he
    by_contra hne
    unfold minuteSegment at he
    rw [if_neg hne] at he
    by_cases h0 : m ≠ 0
    · rw [if_pos h0] at he
      exact append_ne_of_ne_same_length _ _ _ (by decide) (by decide) he
    · rw [if_neg h0] at he
      exact (by decide : ¬("" : String) = "1 minute") he
  · intro h1
    rw [minuteSegment, if_pos h1]

theorem secondSegment_singular_iff (h m s : Int) :
    secondSegment h m s = "1 second" ↔ s = 1 := by
  constructor
  · intro he
    by_contra hne
    unfold secondSegment at he
    rw [if_neg hne] at he
    by_cases hc : s ≠ 0 ∨ (h = 0 ∧ m = 0)
    · rw [if_pos hc] at he
      exact append_ne_of_ne_same_length _ _ _ (by decide) (by decide) he
    · rw [if_neg hc] at he
      exact (by decide : ¬("" : String) = "1 second") he
  · intro h1
    rw [secondSegment, if_pos h1]

theorem hourSegment_zero : hourSegment 0 = "" := by
  unfold hourSegment
  norm_num

theorem minuteSegment_zero : minuteSegment 0 = "" := by
  unfold minuteSegment
  norm_num

theorem hourMinuteSep_zero (m s : Int) : hourMinuteSep 0 m s = "" := by
  unfold hourMinuteSep
  norm_num

theorem minuteSecondSep_zero (s : Int) : minuteSecondSep 0 s = "" := by
  unfold minuteSecondSep
  norm_num

/-- C9: `formatDuration` is total and never returns the empty string; whenever
the hours and minutes components are both zero (including the zero duration
and sub-second durations) it returns the seconds form, with `"0 seconds"` at
zero; and each singular form appears exactly when its component equals 1. -/
theorem formatDuration_total_never_empty_singular (d : Int) :
    formatDuration d ≠ "" ∧
    (hoursOf d = 0 → minutesOf d = 0 → formatDuration d = secondSegment 0 0 (secondsOf d)) ∧
    (hoursOf d = 0 → minutesOf d = 0 → secondsOf d ≠ 1 →
      formatDuration d = toString (secondsOf d) ++ " seconds") ∧
    formatDuration 0 = "0 seconds" ∧
    (hourSegment (hoursOf d) = "1 hour" ↔ hoursOf d = 1) ∧
    (minuteSegment (minutesOf d) = "1 minute" ↔ minutesOf d = 1) ∧
    (secondSegment (hoursOf d) (minutesOf d) (secondsOf d) = "1 second" ↔ secondsOf d = 1) := by
  have hzero : ∀ sv : Int, formatDuration 0 = "0 seconds" := by
    intro _
    decide
  have hsecform : ∀ sv : Int, sv ≠ 1 → secondSegment 0 0 sv = toString sv ++ " seconds" := by
    intro sv hne
    unfold secondSegment
    rw [if_neg hne, if_pos (Or.inr ⟨rfl, rfl⟩)]
  have hmain : hoursOf d = 0 → minutesOf d = 0 →
      formatDuration d = secondSegment 0 0 (secondsOf d) := by
    intro h0 m0
    unfold formatDuration
    rw [h0, m0, hourSegment_zero, hourMinuteSep_zero, minuteSegment_zero, minuteSecondSep_zero,
      String.empty_append, String.empty_append, String.empty_append, String.empty_append]
  refine ⟨?_, hmain, ?_, hzero 0, hourSegment_singular_iff _, minuteSegment_singular_iff _,
    secondSegment_singular_iff _ _ _⟩
  · by_cases h0 : hoursOf d = 0
    · by_cases m0 : minutesOf d = 0
      · rw [hmain h0 m0]
        exact secondSegment_zero_zero_ne_empty _
      · unfold formatDuration
        rw [h0, hourSegment_zero, hourMinuteSep_zero, String.empty_append, String.empty_append]
        exact append_ne_empty_left _ _
          (append_ne_empty_left _ _ (minuteSegment_ne_empty _ m0))
    · unfold formatDuration
      exact append_ne_empty_left _ _ (append_ne_empty_left _ _ (append_ne_empty_left _ _
        (append_ne_empty_left _ _ (hourSegment_ne_empty _ h0))))
  · intro h0 m0 hs1
    rw [hmain h0 m0, hsecform _ hs1]

/-- C9 witness: at the zero duration all hypotheses hold and the seconds form
comes out as `"0 seconds"`. -/
theorem formatDuration_total_never_empty_singular_witness :
    formatDuration 0 ≠ "" ∧ formatDuration 0 = toString (secondsOf 0) ++ " seconds" := by
  have h := formatDuration_total_never_empty_singular 0
  exact ⟨h.1, h.2.2.1 (by decide) (by decide) (by decide)⟩

/-- C10: startup validation of the timeout flag rejects exactly the strictly
negative values (despite the error message demanding a positive value), a
timeout of exactly zero is accepted, and the timeout flows unchanged into the
parameters of every session's `actions.Update` call. -/
theorem timeout_validation_zero_accepted (t : Int) :
    (preRunTimeoutCheck t = Except.ok () ↔ 0 ≤ t) ∧
    preRunTimeoutCheck 0 = Except.ok () ∧
    preRunTimeoutCheck (-1) =
      Except.error "Please specify a positive value for timeout value." ∧
    (∀ g : Globals, ∀ f : FilterExpr, (mkUpdateParams g f).timeout = g.timeout) ∧
    (∀ g : Globals, ∀ f : FilterExpr, ∀ o : UpdateOutcome, ∀ p : UpdateParams,
      Ev.updateCall p ∈ (runUpdatesWithNotifications g f o).1 → p.timeout = g.timeout) := by
  refine ⟨?_, rfl, rfl, fun g f => rfl, ?_⟩
  · unfold preRunTimeoutCheck
    by_cases hneg : t < 0
    · rw [if_pos hneg]
      constructor
      · intro h
        exact absurd h (by simp)
      · intro h
        omega
    · rw [if_neg hneg]
      constructor
      · intro _
        omega
      · intro _
        rfl
  · intro g f o p hmem
    have hp : p = mkUpdateParams g f := by
      cases o <;> simp [runUpdatesWithNotifications] at hmem <;> exact hmem
    rw [hp]
    rfl

/-- C8 counterexample: when the `actions.Update` call panics, the session
trace opens the notification bracket but never flushes it — zero
`SendNotification` events — because root.go 378 is a plain statement, not a
deferred one.  This refutes the claim that the closing flush happens even on
a panic. -/
theorem send_notification_skipped_on_panic :
    (runUpdatesWithNotifications ⟨false, false, false, 0, false, false, false, false⟩
      FilterExpr.base UpdateOutcome.panics).1.countP isSendNotification = 0 ∧
    (runUpdatesWithNotifications ⟨false, false, false, 0, false, false, false, false⟩
      FilterExpr.base UpdateOutcome.panics).1.countP isStartNotification = 1 := by
  decide

/-- C8 (amended): every update session opens with exactly one
`StartNotification` (and it is the first event); whenever `actions.Update`
returns — normally or with an error — exactly one closing `SendNotification`
follows, so failures still flush; but when `actions.Update` panics the
session unwinds without any `SendNotification`, since the flush is not
deferred. -/
theorem notification_bracket_flush (g : Globals) (f : FilterExpr) (o : UpdateOutcome) :
    (runUpdatesWithNotifications g f o).1.countP isStartNotification = 1 ∧
    (runUpdatesWithNotifications g f o).1.head? = some Ev.startNotification ∧
    (o ≠ UpdateOutcome.panics →
      (runUpdatesWithNotifications g f o).1.countP isSendNotification = 1) ∧
    (o = UpdateOutcome.panics →
      (runUpdatesWithNotifications g f o).1.countP isSendNotification = 0) := by
  cases o <;>
    simp [runUpdatesWithNotifications, List.countP_cons, isStartNotification,
      isSendNotification]

/-- C8 witness: a failed update still flushes (one `SendNotification`), a
panicking one does not. -/
theorem notification_bracket_flush_witness :
    (runUpdatesWithNotifications ⟨false, false, false, 0, false, false, false, false⟩
      FilterExpr.base (UpdateOutcome.errored ⟨1, 0, 1⟩ "update failed")).1.countP
        isSendNotification = 1 ∧
    (runUpdatesWithNotifications ⟨false, false, false, 0, false, false, false, false⟩
      FilterExpr.base UpdateOutcome.panics).1.countP isSendNotification = 0 := by
  exact ⟨(notification_bracket_flush ⟨false, false, false, 0, false, false, false, false⟩
      FilterExpr.base (UpdateOutcome.errored ⟨1, 0, 1⟩ "update failed")).2.2.1 (by decide),
    (notification_bracket_flush ⟨false, false, false, 0, false, false, false, false⟩
      FilterExpr.base UpdateOutcome.panics).2.2.2 rfl⟩

/-- C2 counterexample: a scheduler tick whose `actions.Update` call panics
registers no metric at all — `metrics.RegisterScan` at root.go 328 is never
reached, while the deferred `lock <- v` still returns the token and the
robfig/cron v1 job wrapper recovers the panic, so the process and its ticking
continue.  This refutes the claim that every scheduler tick registers exactly
one metric. -/
theorem scheduler_tick_panic_registers_no_metric :
    (schedulerTick 1 ⟨false, false, false, 0, false, false, false, false⟩ FilterExpr.base
      UpdateOutcome.panics).countP isRegisterScan = 0 ∧
    Ev.lockReturned ∈ schedulerTick 1 ⟨false, false, false, 0, false, false, false, false⟩
      FilterExpr.base UpdateOutcome.panics := by
  decide

/-- C2 (amended): on every scheduler tick whose `actions.Update` call
returns, exactly one metric is registered: the metric returned by
`runUpdatesWithNotifications` when the lock token was taken, and a nil
metric when the slot was empty and the tick was skipped; but a tick whose
`Update` call panics registers no metric — only the deferred release of the
token runs, and the cron v1 panic recovery keeps the process alive. -/
theorem scheduler_tick_metric_registration (lockTokens : Nat) (g : Globals)
    (f : FilterExpr) (o : UpdateOutcome) :
    (o ≠ UpdateOutcome.panics →
      (schedulerTick lockTokens g f o).countP isRegisterScan = 1) ∧
    (o ≠ UpdateOutcome.panics → 1 ≤ lockTokens →
      ∃ m : Metric, (runUpdatesWithNotifications g f o).2 = some m ∧
        schedulerTick lockTokens g f o =
          [Ev.lockTaken] ++ (runUpdatesWithNotifications g f o).1 ++
            [Ev.registerScan (some m), Ev.lockReturned]) ∧
    (lockTokens = 0 →
      schedulerTick lockTokens g f o = [Ev.registerScan none, Ev.skipDebugLogged]) ∧
    (o = UpdateOutcome.panics → 1 ≤ lockTokens →
      (schedulerTick lockTokens g f o).countP isRegisterScan = 0 ∧
      Ev.lockReturned ∈ schedulerTick lockTokens g f o) := by
  cases o with
  | panics =>
    cases lockTokens with
    | zero =>
      refine ⟨fun ho => absurd rfl ho, fun ho => absurd rfl ho, fun _ => rfl,
        fun _ h => absurd h (by omega)⟩
    | succ n =>
      refine ⟨fun ho => absurd rfl ho, fun ho => absurd rfl ho, fun h => by omega,
        fun _ _ => ⟨?_, ?_⟩⟩
      · simp [schedulerTick, runUpdatesWithNotifications, List.countP_cons, isRegisterScan]
      · simp [schedulerTick, runUpdatesWithNotifications]
  | ok r =>
    cases lockTokens with
    | zero =>
      refine ⟨fun _ => rfl, fun _ h => absurd h (by omega), fun _ => rfl,
        fun ho => absurd ho (by simp)⟩
    | succ n =>
      refine ⟨fun _ => ?_, fun _ _ => ⟨NewMetric r, rfl, ?_⟩, fun h => by omega,
        fun ho => absurd ho (by simp)⟩
      · simp [schedulerTick, runUpdatesWithNotifications, List.countP_cons, isRegisterScan]
      · simp [schedulerTick, runUpdatesWithNotifications]
  | errored r msg =>
    cases lockTokens with
    | zero =>
      refine ⟨fun _ => rfl, fun _ h => absurd h (by omega), fun _ => rfl,
        fun ho => absurd ho (by simp)⟩
    | succ n =>
      refine ⟨fun _ => ?_, fun _ _ => ⟨NewMetric r, rfl, ?_⟩, fun h => by omega,
        fun ho => absurd ho (by simp)⟩
      · simp [schedulerTick, runUpdatesWithNotifications, List.countP_cons, isRegisterScan]
      · simp [schedulerTick, runUpdatesWithNotifications]

/-- C2 witness: a tick against the seeded lock with a returning session
registers its metric, a tick against the emptied lock registers nil, and a
tick with a panicking session registers nothing. -/
theorem scheduler_tick_metric_registration_witness :
    (schedulerTick 1 ⟨false, false, false, 0, false, false, false, false⟩ FilterExpr.base
      (UpdateOutcome.ok ⟨2, 1, 0⟩)).countP isRegisterScan = 1 ∧
    schedulerTick 0 ⟨false, false, false, 0, false, false, false, false⟩ FilterExpr.base
      (UpdateOutcome.ok ⟨2, 1, 0⟩) = [Ev.registerScan none, Ev.skipDebugLogged] ∧
    (schedulerTick 1 ⟨false, false, false, 0, false, false, false, false⟩ FilterExpr.base
      UpdateOutcome.panics).countP isRegisterScan = 0 := by
  refine ⟨(scheduler_tick_metric_registration 1
      ⟨false, false, false, 0, false, false, false, false⟩ FilterExpr.base
      (UpdateOutcome.ok ⟨2, 1, 0⟩)).1 (by decide),
    (scheduler_tick_metric_registration 0
      ⟨false, false, false, 0, false, false, false, false⟩ FilterExpr.base
      (UpdateOutcome.ok ⟨2, 1, 0⟩)).2.2.1 rfl,
    ((scheduler_tick_metric_registration 1
      ⟨false, false, false, 0, false, false, false, false⟩ FilterExpr.base
      UpdateOutcome.panics).2.2.2 rfl (by omega)).1⟩

theorem step_preserves_tokenCount {s : Sys} {l : Label} {s' : Sys} (h : Step s l s')
    (hs : tokenCount s = 1) : tokenCount s' = 1 := by
  cases h <;> simp only [tokenCount] at hs ⊢ <;> (try simp at hs ⊢) <;> omega

theorem reachable_tokenCount {s : Sys} (h : Reachable s) : tokenCount s = 1 := by
  induction h with
  | init => rfl
  | step hr hs ih => exact step_preserves_tokenCount hs ih

/-- C1: the update lock is a single-slot mailbox: it starts with capacity one
and exactly one buffered token; in every reachable state of the lock protocol
the total token count (buffered, held by a session, or consumed by the final
shutdown drain) is exactly one and at most one session holds the token — so
no two update sessions ever run concurrently, every taken token being
returned by the deferred release; and a scheduler tick that finds the slot
empty does not block: its skip step is always enabled there and leaves the
state unchanged. -/
theorem updateLock_single_slot_mutual_exclusion :
    Sys.init.tokens = 1 ∧ Sys.init.running = 0 ∧
    (∀ s : Sys, Reachable s → tokenCount s = 1 ∧ s.running ≤ 1) ∧
    (∀ s : Sys, s.tokens = 0 → s.schedActive = true → Step s Label.tickSkip s) := by
  refine ⟨rfl, rfl, ?_, fun s h ha => Step.tickSkip s h ha⟩
  intro s hr
  have h := reachable_tokenCount hr
  refine ⟨h, ?_⟩
  unfold tokenCount at h
  omega

/-- C1 witness: the invariant holds at the seeded initial state, and the
non-blocking skip step exists at a concrete state with an emptied slot. -/
theorem updateLock_single_slot_mutual_exclusion_witness :
    tokenCount Sys.init = 1 ∧ Sys.init.running ≤ 1 ∧
    Step ⟨0, 1, true, false, false⟩ Label.tickSkip ⟨0, 1, true, false, false⟩ := by
  have h := updateLock_single_slot_mutual_exclusion
  exact ⟨(h.2.2.1 Sys.init Reachable.init).1, (h.2.2.1 Sys.init Reachable.init).2,
    h.2.2.2 ⟨0, 1, true, false, false⟩ rfl rfl⟩

/-- C3: in any reachable state, the final `<-lock` of the shutdown sequence
can only fire once no session holds the token (the wait blocks until the
in-flight update released the lock) and only after the scheduler was stopped,
which itself happens only after the signal; the number of running sessions
decreases only through a session's own release step — neither the signal nor
the scheduler stop cancels a running session. -/
theorem shutdown_drains_lock_after_stop :
    (∀ s s' : Sys, Reachable s → Step s Label.lockDrain s' →
      s.running = 0 ∧ s.schedActive = false ∧ s.signalled = true ∧ s'.returned = true) ∧
    (∀ (s : Sys) (l : Label) (s' : Sys), Step s l s' → s'.running < s.running →
      l = Label.release) ∧
    (∀ s s' : Sys, Step s Label.signal s' →
      s'.running = s.running ∧ s'.tokens = s.tokens) ∧
    (∀ s s' : Sys, Step s Label.schedStop s' →
      s'.running = s.running ∧ s'.tokens = s.tokens) := by
  refine ⟨?_, ?_, ?_, ?_⟩
  · intro s s' hr hst
    have hinv := reachable_tokenCount hr
    unfold tokenCount at hinv
    cases hst with
    | lockDrain h hz hg =>
      refine ⟨by omega, hz, hg, rfl⟩
  · intro s l s' hst hlt
    cases hst with
    | release h => rfl
    | tickAcquire h ha => exact absurd hlt (by simp)
    | httpAcquire h => exact absurd hlt (by simp)
    | tickSkip h ha => exact absurd hlt (by omega)
    | httpSkip h => exact absurd hlt (by omega)
    | signal => exact absurd hlt (by simp)
    | schedStop h => exact absurd hlt (by simp)
    | lockDrain h hz hg => exact absurd hlt (by simp)
  · intro s s' hst
    cases hst with
    | signal => exact ⟨rfl, rfl⟩
  · intro s s' hst
    cases hst with
    | schedStop h => exact ⟨rfl, rfl⟩

/-- C3 witness: after signal and scheduler stop from the initial state, the
drain step fires and indeed finds no running session. -/
theorem shutdown_drains_lock_after_stop_witness :
    (⟨1, 0, false, true, false⟩ : Sys).running = 0 ∧
    (⟨1, 0, false, true, false⟩ : Sys).schedActive = false := by
  have hreach : Reachable ⟨1, 0, false, true, false⟩ :=
    Reachable.step (Reachable.step Reachable.init (Step.signal Sys.init))
      (Step.schedStop ⟨1, 0, true, true, false⟩ rfl)
  have hstep : Step ⟨1, 0, false, true, false⟩ Label.lockDrain ⟨0, 0, false, true, true⟩ :=
    Step.lockDrain ⟨1, 0, false, true, false⟩ (by decide) rfl rfl
  have h := shutdown_drains_lock_after_stop.1 _ _ hreach hstep
  exact ⟨h.1, h.2.1⟩

/-- C4: with health-check mode off (its branch precedes this check and exits
on its own), setting both the rolling-restart flag and the global
monitor-only flag makes `Run` terminate fatally with exit code 1 before the
sanity check, before any session, before the scheduler and before the HTTP
API is started. -/
theorem rolling_restart_monitor_only_fatal (cfg : RunConfig)
    (hh : cfg.healthCheck = false) (hr : cfg.globals.rollingRestart = true)
    (hm : cfg.globals.monitorOnly = true) :
    Run cfg = ([RunEvent.fatalLogged], RunResult.exited 1) ∧
    RunEvent.sanityChecked ∉ (Run cfg).1 ∧
    (∀ e : Ev, RunEvent.sessionEv e ∉ (Run cfg).1) ∧
    (∀ lockId : Nat, RunEvent.schedulerStarted lockId ∉ (Run cfg).1) ∧
    (∀ b : Bool, RunEvent.apiStarted b ∉ (Run cfg).1) := by
  have hrun : Run cfg = ([RunEvent.fatalLogged], RunResult.exited 1) := by
    simp [Run, hh, hr, hm]
  refine ⟨hrun, ?_, ?_, ?_, ?_⟩ <;> simp [hrun]

/-- C4 witness: a concrete configuration with both flags set is rejected. -/
theorem rolling_restart_monitor_only_fatal_witness :
    Run ⟨false, 10, false, false, false, false, false, true, true, "@every 5m",
      ⟨false, false, true, 0, false, true, false, false⟩,
      UpdateOutcome.ok ⟨0, 0, 0⟩⟩ = ([RunEvent.fatalLogged], RunResult.exited 1) :=
  (rolling_restart_monitor_only_fatal
    ⟨false, 10, false, false, false, false, false, true, true, "@every 5m",
      ⟨false, false, true, 0, false, true, false, false⟩,
      UpdateOutcome.ok ⟨0, 0, 0⟩⟩ rfl rfl rfl).1

/-- C6: the process exit code is 0 on a clean run-once completion and on a
health-check pass when the process is not PID 1; it is 1 when the
health-check flag is passed to PID 1 (a fatal condition), on each fatal
startup condition (rolling-restart with monitor-only, failed sanity check,
failed multiple-instance check) and on the scheduler exit path regardless of
whether the cron spec parsed. -/
theorem run_exit_codes (cfg : RunConfig) :
    (cfg.healthCheck = true → cfg.pid ≠ 1 → Run cfg = ([], RunResult.exited 0)) ∧
    (cfg.healthCheck = true → cfg.pid = 1 →
      Run cfg = ([RunEvent.fatalLogged], RunResult.exited 1)) ∧
    (cfg.healthCheck = false → cfg.globals.rollingRestart = true →
      cfg.globals.monitorOnly = true → (Run cfg).2 = RunResult.exited 1) ∧
    (cfg.healthCheck = false →
      (cfg.globals.rollingRestart && cfg.globals.monitorOnly) = false →
      cfg.sanityOk = false → (Run cfg).2 = RunResult.exited 1) ∧
    (cfg.healthCheck = false →
      (cfg.globals.rollingRestart && cfg.globals.monitorOnly) = false →
      cfg.sanityOk = true → cfg.runOnce = true →
      cfg.sessionOutcome ≠ UpdateOutcome.panics → (Run cfg).2 = RunResult.exited 0) ∧
    (cfg.healthCheck = false →
      (cfg.globals.rollingRestart && cfg.globals.monitorOnly) = false →
      cfg.sanityOk = true → cfg.runOnce = false → cfg.multiInstanceOk = false →
      (Run cfg).2 = RunResult.exited 1) ∧
    (cfg.healthCheck = false →
      (cfg.globals.rollingRestart && cfg.globals.monitorOnly) = false →
      cfg.sanityOk = true → cfg.runOnce = false → cfg.multiInstanceOk = true →
      (Run cfg).2 = RunResult.exited 1) := by
  refine ⟨?_, ?_, ?_, ?_, ?_, ?_, ?_⟩
  · intro h1 h2
    simp [Run, h1, h2]
  · intro h1 h2
    simp [Run, h1, h2]
  · intro h1 h2 h3
    simp [Run, h1, h2, h3]
  · intro h1 h2 h3
    simp [Run, h1, h2, h3]
  · intro h1 h2 h3 h4 h5
    simp [Run, h1, h2, h3, h4, h5]
  · intro h1 h2 h3 h4 h5
    simp [Run, h1, h2, h3, h4, h5]
  · intro h1 h2 h3 h4 h5
    simp only [Run, h1, h2, h3, h4, h5, runUpgradesOnSchedule]
    rcases hcp : cronParse cfg.scheduleSpec with e | sch <;> simp [hcp]

/-- C6 witness: concrete runs hit exit code 0 on a non-PID-1 health check
and exit code 1 on the scheduler exit path. -/
theorem run_exit_codes_witness :
    Run ⟨true, 10, false, false, false, false, false, true, true, "@every 5m",
      ⟨false, false, false, 0, false, false, false, false⟩,
      UpdateOutcome.ok ⟨0, 0, 0⟩⟩ = ([], RunResult.exited 0) ∧
    (Run ⟨false, 10, false, false, false, false, false, true, true, "@every 5m",
      ⟨false, false, false, 0, false, false, false, false⟩,
      UpdateOutcome.ok ⟨0, 0, 0⟩⟩).2 = RunResult.exited 1 := by
  constructor
  · exact (run_exit_codes ⟨true, 10, false, false, false, false, false, true, true, "@every 5m",
      ⟨false, false, false, 0, false, false, false, false⟩,
      UpdateOutcome.ok ⟨0, 0, 0⟩⟩).1 rfl (by decide)
  · exact (run_exit_codes ⟨false, 10, false, false, false, false, false, true, true, "@every 5m",
      ⟨false, false, false, 0, false, false, false, false⟩,
      UpdateOutcome.ok ⟨0, 0, 0⟩⟩).2.2.2.2.2.2 rfl rfl rfl rfl rfl

/-- C7 counterexample: with the schedule option empty (and run-once unset)
the process does not continue — cron rejects the empty spec,
`runUpgradesOnSchedule` returns the error, and `Run` logs it and exits with
code 1 without ever starting the scheduler. -/
theorem empty_schedule_fatal_counterexample :
    (runUpgradesOnSchedule "" 0).2 = Except.error "empty spec string" ∧
    (Run ⟨false, 10, false, false, false, false, false, true, true, "",
      ⟨false, false, false, 0, false, false, false, false⟩,
      UpdateOutcome.ok ⟨0, 0, 0⟩⟩).2 = RunResult.exited 1 ∧
    RunEvent.errorLogged ∈
      (Run ⟨false, 10, false, false, false, false, false, true, true, "",
        ⟨false, false, false, 0, false, false, false, false⟩,
        UpdateOutcome.ok ⟨0, 0, 0⟩⟩).1 ∧
    RunEvent.schedulerStarted 0 ∉
      (Run ⟨false, 10, false, false, false, false, false, true, true, "",
        ⟨false, false, false, 0, false, false, false, false⟩,
        UpdateOutcome.ok ⟨0, 0, 0⟩⟩).1 := by
  exact ⟨rfl, rfl, by decide, by decide⟩

/-- C7 (amended): when the schedule option is the empty string and run-once
is not set, no periodic update session can ever run, but not by idling:
`robfig/cron` rejects the empty expression, `runUpgradesOnSchedule` returns
the parse error without starting the scheduler, and `Run` logs the error and
exits with code 1 instead of continuing. -/
theorem empty_schedule_fails_fatally (cfg : RunConfig)
    (hh : cfg.healthCheck = false)
    (hrm : (cfg.globals.rollingRestart && cfg.globals.monitorOnly) = false)
    (hs : cfg.sanityOk = true) (hro : cfg.runOnce = false)
    (hmi : cfg.multiInstanceOk = true) (hspec : cfg.scheduleSpec = "") :
    (Run cfg).2 = RunResult.exited 1 ∧
    RunEvent.errorLogged ∈ (Run cfg).1 ∧
    (∀ lockId : Nat, RunEvent.schedulerStarted lockId ∉ (Run cfg).1) ∧
    (runUpgradesOnSchedule cfg.scheduleSpec 0).2 = Except.error "empty spec string" := by
  rcases h1 : cfg.enableUpdateAPI <;> rcases h2 : cfg.unblockHTTPAPI <;>
    rcases h3 : cfg.enableMetricsAPI <;> rcases h4 : cfg.apiStartError <;>
    simp [Run, hh, hrm, hs, hro, hmi, hspec, runUpgradesOnSchedule, cronParse,
      h1, h2, h3, h4]

/-- C7 witness: a concrete daemon configuration with an empty schedule exits
with code 1 and an error log. -/
theorem empty_schedule_fails_fatally_witness :
    (Run ⟨false, 10, false, true, true, true, true, true, true, "",
      ⟨false, false, false, 0, false, false, false, false⟩,
      UpdateOutcome.ok ⟨0, 0, 0⟩⟩).2 = RunResult.exited 1 ∧
    RunEvent.errorLogged ∈
      (Run ⟨false, 10, false, true, true, true, true, true, true, "",
        ⟨false, false, false, 0, false, false, false, false⟩,
        UpdateOutcome.ok ⟨0, 0, 0⟩⟩).1 := by
  have h := empty_schedule_fails_fatally
    ⟨false, 10, false, true, true, true, true, true, true, "",
      ⟨false, false, false, 0, false, false, false, false⟩,
      UpdateOutcome.ok ⟨0, 0, 0⟩⟩ rfl rfl rfl rfl rfl rfl
  exact ⟨h.1, h.2.1⟩

/-- C5: every request handled by the `/v1/update` endpoint (handler modelled
from the spec, callback and wiring from root.go 186-191) runs a session over
the base filter narrowed by the requested image names via `FilterByImage`,
registers the resulting metric, and is gated through the same single-slot
lock (id 0, capacity 1, seeded with one token) that `Run` hands to the
scheduler. -/
theorem http_update_runs_narrowed_session (lockTokens : Nat) (g : Globals)
    (baseF : FilterExpr) (images : Option (List String)) (o : UpdateOutcome) :
    (1 ≤ lockTokens →
      handleUpdateRequest lockTokens g baseF images o =
        [Ev.lockTaken] ++ (runUpdatesWithNotifications g (FilterByImage images baseF) o).1 ++
          (match (runUpdatesWithNotifications g (FilterByImage images baseF) o).2 with
           | some m => [Ev.registerScan (some m)]
           | none => []) ++ [Ev.lockReturned]) ∧
    (1 ≤ lockTokens → o ≠ UpdateOutcome.panics →
      Ev.updateCall (mkUpdateParams g (FilterByImage images baseF)) ∈
        handleUpdateRequest lockTokens g baseF images o ∧
      ∃ m : Metric, (runUpdatesWithNotifications g (FilterByImage images baseF) o).2 = some m ∧
        Ev.registerScan (some m) ∈ handleUpdateRequest lockTokens g baseF images o) ∧
    (lockTokens = 0 → handleUpdateRequest lockTokens g baseF images o = [Ev.skippedReported]) ∧
    (∀ cfg : RunConfig, cfg.healthCheck = false →
      (cfg.globals.rollingRestart && cfg.globals.monitorOnly) = false →
      cfg.sanityOk = true → cfg.runOnce = false → cfg.multiInstanceOk = true →
      cfg.enableUpdateAPI = true → cfg.scheduleSpec ≠ "" →
      RunEvent.lockCreated 0 1 1 ∈ (Run cfg).1 ∧
      RunEvent.apiUpdateHandlerRegistered 0 ∈ (Run cfg).1 ∧
      RunEvent.schedulerStarted 0 ∈ (Run cfg).1) := by
  refine ⟨?_, ?_, ?_, ?_⟩
  · intro htok
    cases lockTokens with
    | zero => omega
    | succ n =>
      cases o <;>
        simp [handleUpdateRequest, updateAPICallback, runUpdatesWithNotifications]
  · intro htok hnp
    cases lockTokens with
    | zero => omega
    | succ n =>
      cases o with
      | panics => exact absurd rfl hnp
      | ok r =>
        refine ⟨?_, NewMetric r, rfl, ?_⟩ <;>
          simp [handleUpdateRequest, updateAPICallback, runUpdatesWithNotifications]
      | errored r msg =>
        refine ⟨?_, NewMetric r, rfl, ?_⟩ <;>
          simp [handleUpdateRequest, updateAPICallback, runUpdatesWithNotifications]
  · intro h0
    subst h0
    rfl
  · intro cfg hh hrm hs hro hmi hapi hspec
    refine ⟨?_, ?_, ?_⟩ <;>
      simp [Run, hh, hrm, hs, hro, hmi, hapi, runUpgradesOnSchedule, cronParse, hspec]

/-- C5 witness: with the token present, a request for image "app:latest"
runs the session over the narrowed filter; and the sample daemon
configuration wires lock 0 into both the handler and the scheduler. -/
theorem http_update_runs_narrowed_session_witness :
    handleUpdateRequest 1 ⟨false, false, false, 0, false, false, false, false⟩ FilterExpr.base
      (some ["app:latest"]) (UpdateOutcome.ok ⟨1, 1, 0⟩) = [Ev.lockTaken] ++
        (runUpdatesWithNotifications ⟨false, false, false, 0, false, false, false, false⟩
          (FilterByImage (some ["app:latest"]) FilterExpr.base) (UpdateOutcome.ok ⟨1, 1, 0⟩)).1 ++
        [Ev.registerScan (some (NewMetric ⟨1, 1, 0⟩)), Ev.lockReturned] ∧
    RunEvent.schedulerStarted 0 ∈
      (Run ⟨false, 10, false, true, false, false, false, true, true, "@every 5m",
        ⟨false, false, false, 0, false, false, false, false⟩,
        UpdateOutcome.ok ⟨1, 1, 0⟩⟩).1 := by
  constructor
  · have h := (http_update_runs_narrowed_session 1
      ⟨false, false, false, 0, false, false, false, false⟩ FilterExpr.base
      (some ["app:latest"]) (UpdateOutcome.ok ⟨1, 1, 0⟩)).1 (by omega)
    simpa [runUpdatesWithNotifications] using h
  · exact ((http_update_runs_narrowed_session 1
      ⟨false, false, false, 0, false, false, false, false⟩ FilterExpr.base
      (some ["app:latest"]) (UpdateOutcome.ok ⟨1, 1, 0⟩)).2.2.2
      ⟨false, 10, false, true, false, false, false, true, true, "@every 5m",
        ⟨false, false, false, 0, false, false, false, false⟩,
        UpdateOutcome.ok ⟨1, 1, 0⟩⟩ rfl rfl rfl rfl rfl rfl (by decide)).2.2

/-- C10 witness: at timeout 0 the check passes and a concrete session's
update call carries timeout 0. -/
theorem timeout_validation_zero_accepted_witness :
    preRunTimeoutCheck 0 = Except.ok () ∧
    (mkUpdateParams ⟨false, false, false, 0, false, false, false, false⟩ FilterExpr.base).timeout
      = (⟨false, false, false, 0, false, false, false, false⟩ : Globals).timeout := by
  refine ⟨(timeout_validation_zero_accepted 0).2.1, ?_⟩
  exact (timeout_validation_zero_accepted 0).2.2.2.2
    ⟨false, false, false, 0, false, false, false, false⟩ FilterExpr.base
    (UpdateOutcome.ok ⟨1, 1, 0⟩)
    (mkUpdateParams ⟨false, false, false, 0, false, false, false, false⟩ FilterExpr.base)
    (by decide)

end Watchtower
